import Mathlib

/-!
Shallow embedding of `sentinel_x/core.py` (the Sentinel-X security monitor):
the `ThreatLevel` enumeration, the `SecurityEvent` dataclass with its
`__post_init__` validation, and the `SecurityMonitor` event store with its
operations `log_event`, `get_events`, `get_status`, `clear_events`,
`get_critical_events` and `get_event_summary`, plus the start/stop lifecycle.

Modelling conventions:
- Python `datetime` values are modelled as integers (`Int`), since the code
  only ever compares them (`>=`, `<=`); `isoformat` is kept as the timestamp
  value itself inside the serialized record.
- Python exceptions are modelled explicitly (`PyError`); `log_event` returns
  both the error (if any) and the post-call state, because the Python code
  can raise AFTER having mutated `self.events` (the `logger.log` call sits
  after the `append` inside the same method).
- The `logging` module's level attributes are modelled by `logging_getattr`:
  the real module defines CRITICAL/ERROR/WARNING/WARN/INFO/DEBUG/NOTSET and
  nothing else, so `getattr(logging, name)` fails for HIGH, MEDIUM and LOW.
- Python dicts used as counters are modelled as insertion-ordered association
  lists (`List (String × Nat)`), matching `d[k] = d.get(k, 0) + 1` semantics.
- The background thread is modelled by a counter of live background tasks;
  the cooperative loop itself does no observable work (it is a no-op stub in
  the source), so only spawn/join effects are represented.
-/

namespace SentinelX

/-- The `ThreatLevel` enum of `core.py`: five named severity levels. -/
inductive ThreatLevel where
  | CRITICAL
  | HIGH
  | MEDIUM
  | LOW
  | INFO
deriving DecidableEq, Repr

/-- The `.name` attribute of a `ThreatLevel` member (identical to `.value`
in the source, since each member's value is its own name). -/
def ThreatLevel.name : ThreatLevel → String
  | .CRITICAL => "CRITICAL"
  | .HIGH => "HIGH"
  | .MEDIUM => "MEDIUM"
  | .LOW => "LOW"
  | .INFO => "INFO"

/-- The `severity_order` rank table used by `ThreatLevel.__lt__`. -/
def severity_order : ThreatLevel → Nat
  | .CRITICAL => 5
  | .HIGH => 4
  | .MEDIUM => 3
  | .LOW => 2
  | .INFO => 1

/-- `ThreatLevel.__lt__`: strict comparison through the rank table. -/
def ThreatLevel.lt (a b : ThreatLevel) : Bool :=
  severity_order a < severity_order b

/-- `ThreatLevel.__le__`: `self == other or self < other`. -/
def ThreatLevel.le (a b : ThreatLevel) : Bool :=
  a == b || ThreatLevel.lt a b

/-- `ThreatLevel.__gt__`: `not (self <= other)`. -/
def ThreatLevel.gt (a b : ThreatLevel) : Bool :=
  !(ThreatLevel.le a b)

/-- `ThreatLevel.__ge__`: `not (self < other)`. -/
def ThreatLevel.ge (a b : ThreatLevel) : Bool :=
  !(ThreatLevel.lt a b)

/-- The `SecurityEvent` dataclass: one security occurrence.  `details` is the
open string-to-value mapping; values are kept as strings (the code never
inspects them). -/
structure SecurityEvent where
  event_id : String
  timestamp : Int
  threat_level : ThreatLevel
  event_type : String
  source : String
  description : String
  details : List (String × String)
deriving DecidableEq, Repr

/-- Python exceptions that the embedded code can raise. -/
inductive PyError where
  | typeError (msg : String)
  | indexError (msg : String)
  | attributeError (msg : String)
  | valueError (msg : String)
deriving DecidableEq, Repr

/-- `SecurityEvent.__post_init__`: validates the four required text fields in
source order and raises `ValueError` naming the first empty one. -/
def SecurityEvent.post_init (e : SecurityEvent) : Except PyError SecurityEvent :=
  if e.event_id.isEmpty then .error (.valueError "event_id cannot be empty")
  else if e.event_type.isEmpty then .error (.valueError "event_type cannot be empty")
  else if e.source.isEmpty then .error (.valueError "source cannot be empty")
  else if e.description.isEmpty then .error (.valueError "description cannot be empty")
  else .ok e

/-- Constructing a `SecurityEvent(...)` with an explicit `details` argument:
the dataclass assigns the fields and then runs `__post_init__`. -/
def mkSecurityEvent (event_id : String) (timestamp : Int) (threat_level : ThreatLevel)
    (event_type : String) (source : String) (description : String)
    (details : List (String × String)) : Except PyError SecurityEvent :=
  SecurityEvent.post_init
    { event_id, timestamp, threat_level, event_type, source, description, details }

/-- Constructing a `SecurityEvent(...)` without passing `details`: the
dataclass default `field(default_factory=dict)` supplies the empty mapping. -/
def mkSecurityEventNoDetails (event_id : String) (timestamp : Int)
    (threat_level : ThreatLevel) (event_type : String) (source : String)
    (description : String) : Except PyError SecurityEvent :=
  mkSecurityEvent event_id timestamp threat_level event_type source description []

/-- The serialized record produced by `SecurityEvent.to_dict` (the timestamp
stands for its `isoformat` string). -/
structure EventDict where
  event_id : String
  timestamp : Int
  threat_level : String
  event_type : String
  source : String
  description : String
  details : List (String × String)
deriving DecidableEq, Repr

/-- `SecurityEvent.to_dict`: canonical structured form of an event. -/
def SecurityEvent.to_dict (e : SecurityEvent) : EventDict :=
  { event_id := e.event_id
    timestamp := e.timestamp
    threat_level := e.threat_level.name
    event_type := e.event_type
    source := e.source
    description := e.description
    details := e.details }

/-- Attribute lookup on the Python `logging` module: the module defines only
these level names, so `getattr(logging, n)` raises `AttributeError` for any
other `n` (in particular for HIGH, MEDIUM and LOW). -/
def logging_getattr : String → Option Nat
  | "CRITICAL" => some 50
  | "FATAL" => some 50
  | "ERROR" => some 40
  | "WARNING" => some 30
  | "WARN" => some 30
  | "INFO" => some 20
  | "DEBUG" => some 10
  | "NOTSET" => some 0
  | _ => none

/-- The `SecurityMonitor` state: name, capacity, stored events (oldest
first), the `_monitoring` flag, the `_stop_event` signal, and the number of
live background tasks (modelling the `_monitor_thread` handle). -/
structure SecurityMonitor where
  name : String
  max_events : Int
  events : List SecurityEvent
  monitoring : Bool
  stop_event_set : Bool
  live_tasks : Nat
deriving DecidableEq, Repr

/-- `SecurityMonitor.__init__(name, max_events)`: empty store, not
monitoring, no background task. -/
def SecurityMonitor.init (name : String) (max_events : Int) : SecurityMonitor :=
  { name, max_events, events := [], monitoring := false,
    stop_event_set := false, live_tasks := 0 }

/-- The argument passed to `log_event`: either a `SecurityEvent` instance or
some other Python value. -/
inductive LogArg where
  | ev (e : SecurityEvent)
  | nonEvent
deriving Repr

/-- Outcome of a `log_event` call: the raised exception, if any, together
with the post-call monitor state (mutation can survive a raise). -/
structure LogResult where
  error : Option PyError
  state : SecurityMonitor
deriving Repr

/-- The tail of `log_event` after the eviction branch: append the event, then
`logger.log(getattr(logging, event.threat_level.name), ...)`, whose attribute
lookup raises `AttributeError` for the levels `logging` does not define.  The
append has already happened when the lookup runs, so the mutation persists. -/
def logAppendAndEmit (m : SecurityMonitor) (e : SecurityEvent) : LogResult :=
  let m2 := { m with events := m.events ++ [e] }
  match logging_getattr e.threat_level.name with
  | some _ => { error := none, state := m2 }
  | none =>
      { error := some (.attributeError
          ("module logging has no attribute " ++ e.threat_level.name))
        state := m2 }

/-- `SecurityMonitor.log_event`: type check, FIFO eviction when
`len(self.events) >= self.max_events` (where `pop(0)` on an empty list raises
`IndexError`), append, then the diagnostic `logger.log` call. -/
def log_event (m : SecurityMonitor) (arg : LogArg) : LogResult :=
  match arg with
  | .nonEvent =>
      { error := some (.typeError "event must be an instance of SecurityEvent")
        state := m }
  | .ev e =>
      if (m.events.length : Int) ≥ m.max_events then
        match m.events with
        | [] => { error := some (.indexError "pop from empty list"), state := m }
        | _ :: rest => logAppendAndEmit { m with events := rest } e
      else
        logAppendAndEmit m e

/-- Fold a sequence of `log_event` calls over the monitor, threading the
post-call state through even when a call raises (the caller catching the
exception and continuing observes exactly these states). -/
def logMany (m : SecurityMonitor) (es : List SecurityEvent) : SecurityMonitor :=
  es.foldl (fun s e => (log_event s (.ev e)).state) m

/-- `SecurityMonitor.start_monitoring`: no-op with a warning when already
monitoring; otherwise set the flag, clear the stop signal and spawn one
background task.  The returned `Bool` records whether the warning branch was
taken. -/
def start_monitoring (m : SecurityMonitor) : SecurityMonitor × Bool :=
  if m.monitoring then (m, true)
  else
    ({ m with monitoring := true, stop_event_set := false,
              live_tasks := m.live_tasks + 1 }, false)

/-- `SecurityMonitor.stop_monitoring`: no-op with a warning when not
monitoring; otherwise clear the flag, set the stop signal and join the
background task (the loop re-checks `self._monitoring` and the signal, so it
terminates and the task handle goes dead).  The returned `Bool` records
whether the warning branch was taken. -/
def stop_monitoring (m : SecurityMonitor) : SecurityMonitor × Bool :=
  if !m.monitoring then (m, true)
  else
    ({ m with monitoring := false, stop_event_set := true, live_tasks := 0 }, false)

/-- One optional filter stage of `get_events`: Python applies the list
comprehension only when the argument is not `None`. -/
def filterStage {α : Type} (fe : List SecurityEvent) (opt : Option α)
    (p : α → SecurityEvent → Bool) : List SecurityEvent :=
  match opt with
  | none => fe
  | some x => fe.filter (p x)

/-- `SecurityMonitor.get_events`: copy the store, then apply the five
optional filters in sequence. -/
def get_events (m : SecurityMonitor) (threat_level : Option ThreatLevel)
    (event_type : Option String) (source : Option String)
    (start_time : Option Int) (end_time : Option Int) : List SecurityEvent :=
  let fe := m.events
  let fe := filterStage fe threat_level (fun tl e => e.threat_level.ge tl)
  let fe := filterStage fe event_type (fun et e => e.event_type.toLower == et.toLower)
  let fe := filterStage fe source (fun s e => e.source.toLower == s.toLower)
  let fe := filterStage fe start_time (fun st e => decide (e.timestamp ≥ st))
  let fe := filterStage fe end_time (fun en e => decide (e.timestamp ≤ en))
  fe

/-- `SecurityMonitor._calculate_threat_summary`: a dict zero-initialized over
all five levels, then incremented per stored event; modelled as a total
function from levels to counts. -/
def calculate_threat_summary (events : List SecurityEvent) : ThreatLevel → Nat :=
  events.foldl (fun s e => Function.update s e.threat_level (s e.threat_level + 1))
    (fun _ => 0)

/-- The dictionary returned by `SecurityMonitor.get_status` (its `timestamp`
field is the wall-clock reading `now`, threaded in as a parameter). -/
structure Status where
  name : String
  monitoring_active : Bool
  total_events : Nat
  max_capacity : Int
  capacity_usage_percent : ℚ
  threat_summary : ThreatLevel → Nat
  timestamp : Int

/-- `SecurityMonitor.get_status`: point-in-time snapshot with the capacity
percentage guarded against `max_events = 0`. -/
def get_status (m : SecurityMonitor) (now : Int) : Status :=
  let event_count := m.events.length
  { name := m.name
    monitoring_active := m.monitoring
    total_events := event_count
    max_capacity := m.max_events
    capacity_usage_percent :=
      if m.max_events > 0 then (event_count : ℚ) / (m.max_events : ℚ) * 100 else 0
    threat_summary := calculate_threat_summary m.events
    timestamp := now }

/-- `SecurityMonitor.clear_events`: with no threshold, clear everything and
return the prior count; with a threshold, keep only strictly more severe
events and return how many were removed. -/
def clear_events (m : SecurityMonitor) (threat_level : Option ThreatLevel) :
    Nat × SecurityMonitor :=
  match threat_level with
  | none => (m.events.length, { m with events := [] })
  | some tl =>
      let initial_count := m.events.length
      let kept := m.events.filter (fun e => e.threat_level.gt tl)
      (initial_count - kept.length, { m with events := kept })

/-- `SecurityMonitor.get_critical_events`: events whose level is CRITICAL or
HIGH, in store order. -/
def get_critical_events (m : SecurityMonitor) : List SecurityEvent :=
  m.events.filter (fun e =>
    e.threat_level == ThreatLevel.CRITICAL || e.threat_level == ThreatLevel.HIGH)

/-- `d[k] = d.get(k, 0) + 1` on an insertion-ordered Python dict: update the
existing entry in place, or append a fresh entry with count 1. -/
def dictIncr (d : List (String × Nat)) (k : String) : List (String × Nat) :=
  match d with
  | [] => [(k, 1)]
  | (k2, v) :: rest =>
      if k2 == k then (k2, v + 1) :: rest else (k2, v) :: dictIncr rest k

/-- `d.get(k)` on an insertion-ordered Python dict. -/
def dictLookup (d : List (String × Nat)) (k : String) : Option Nat :=
  match d with
  | [] => none
  | (k2, v) :: rest => if k2 == k then some v else dictLookup rest k

/-- The dictionary returned by `SecurityMonitor.get_event_summary`. -/
structure EventSummary where
  total_events : Nat
  events_by_type : List (String × Nat)
  events_by_source : List (String × Nat)
  critical_events : Nat
  latest_event : Option EventDict
deriving DecidableEq, Repr

/-- `SecurityMonitor.get_event_summary`: early return for the empty store;
otherwise count by type and by source, count CRITICAL/HIGH events, and
serialize the last stored event. -/
def get_event_summary (m : SecurityMonitor) : EventSummary :=
  let events_copy := m.events
  if events_copy.isEmpty then
    { total_events := 0, events_by_type := [], events_by_source := [],
      critical_events := 0, latest_event := none }
  else
    { total_events := events_copy.length
      events_by_type := events_copy.foldl (fun d e => dictIncr d e.event_type) []
      events_by_source := events_copy.foldl (fun d e => dictIncr d e.source) []
      critical_events := (events_copy.filter (fun e =>
        e.threat_level == ThreatLevel.CRITICAL ||
        e.threat_level == ThreatLevel.HIGH)).length
      latest_event := events_copy.getLast?.map SecurityEvent.to_dict }

/-- A concrete valid `SecurityEvent` (all four required text fields
non-empty), used to evaluate the operations on concrete inputs. -/
def sampleEvent (n : Nat) (lvl : ThreatLevel) : SecurityEvent :=
  { event_id := "evt-" ++ toString n
    timestamp := (n : Int)
    threat_level := lvl
    event_type := "intrusion"
    source := "sensor"
    description := "suspicious activity"
    details := [] }

/-- C1: the claim says `log_event` raises exactly on non-`SecurityEvent`
arguments, completes without raising on valid events of all five severity
levels, and never mutates the store when it raises.  The code violates this:
on the default monitor, logging a valid HIGH event raises `AttributeError`
(the `logging` module has no attribute `HIGH`, so
`getattr(logging, event.threat_level.name)` fails) and the raise happens
after the `append`, so the store is left mutated.  This theorem evaluates
the code at that failing input. -/
theorem log_event_high_raises_after_mutation :
    (log_event (SecurityMonitor.init "Sentinel-X Monitor" 10000)
        (.ev (sampleEvent 1 .HIGH))).error =
      some (.attributeError "module logging has no attribute HIGH") ∧
    (log_event (SecurityMonitor.init "Sentinel-X Monitor" 10000)
        (.ev (sampleEvent 1 .HIGH))).state.events = [sampleEvent 1 .HIGH] ∧
    (log_event (SecurityMonitor.init "Sentinel-X Monitor" 10000)
        (.ev (sampleEvent 2 .MEDIUM))).error ≠ none ∧
    (log_event (SecurityMonitor.init "Sentinel-X Monitor" 10000)
        (.ev (sampleEvent 3 .LOW))).error ≠ none ∧
    (log_event (SecurityMonitor.init "Sentinel-X Monitor" 10000)
        (.ev (sampleEvent 4 .CRITICAL))).error = none ∧
    (log_event (SecurityMonitor.init "Sentinel-X Monitor" 10000)
        (.ev (sampleEvent 5 .INFO))).error = none := by
  refine ⟨rfl, rfl, ?_, ?_, rfl, rfl⟩ <;> decide

/-- C2, as stated, is false: with `max_events = 0` the eviction branch runs
`self.events.pop(0)` on the empty list, which raises `IndexError`, so the
call does not succeed. -/
theorem log_event_zero_capacity_raises :
    (log_event (SecurityMonitor.init "M" 0) (.ev (sampleEvent 1 .INFO))).error =
      some (.indexError "pop from empty list") := rfl

/-- C2 amended: on a monitor constructed with `max_events = 0`, every
`log_event` call with a valid `SecurityEvent` raises `IndexError` (the
eviction pops from an empty list before any append) and the store stays
empty after every call. -/
theorem log_event_zero_capacity_spec :
    (∀ (m : SecurityMonitor) (e : SecurityEvent),
      m.max_events = 0 → m.events = [] →
      log_event m (.ev e) =
        { error := some (.indexError "pop from empty list"), state := m }) ∧
    (∀ (name : String) (es : List SecurityEvent),
      (logMany (SecurityMonitor.init name 0) es).events = []) := by
  have hstep : ∀ (m : SecurityMonitor) (e : SecurityEvent),
      m.max_events = 0 → m.events = [] →
      log_event m (.ev e) =
        { error := some (.indexError "pop from empty list"), state := m } := by
    intro m e hmax hev
    simp [log_event, hev, hmax]
  refine ⟨hstep, ?_⟩
  intro name es
  suffices h : ∀ (es : List SecurityEvent) (m : SecurityMonitor),
      m.max_events = 0 → m.events = [] → (logMany m es).events = [] by
    exact h es (SecurityMonitor.init name 0) rfl rfl
  intro es
  induction es with
  | nil => intro m _ hev; exact hev
  | cons e rest ih =>
      intro m hmax hev
      have h1 := hstep m e hmax hev
      simp only [logMany, List.foldl_cons, h1]
      exact ih m hmax hev

/-- Witness for the amended C2 at a concrete monitor and event. -/
theorem log_event_zero_capacity_spec_witness :
    log_event (SecurityMonitor.init "M" 0) (.ev (sampleEvent 2 .HIGH)) =
      { error := some (.indexError "pop from empty list")
        state := SecurityMonitor.init "M" 0 } ∧
    (logMany (SecurityMonitor.init "M" 0)
      [sampleEvent 2 .HIGH, sampleEvent 3 .LOW]).events = [] :=
  ⟨log_event_zero_capacity_spec.1 (SecurityMonitor.init "M" 0)
      (sampleEvent 2 .HIGH) rfl rfl,
   log_event_zero_capacity_spec.2 "M" [sampleEvent 2 .HIGH, sampleEvent 3 .LOW]⟩

/-- C9: `SecurityEvent` construction fails iff one of the four required text
fields is empty; the `ValueError` names the first empty field in the order
`event_id`, `event_type`, `source`, `description`; with all four non-empty
it succeeds with exactly the given fields, and omitting `details` defaults
it to the empty mapping. -/
theorem securityEvent_validation (event_id : String) (timestamp : Int)
    (threat_level : ThreatLevel) (event_type : String) (source : String)
    (description : String) (details : List (String × String)) :
    ((∃ msg, mkSecurityEvent event_id timestamp threat_level event_type source
        description details = .error (.valueError msg)) ↔
      (event_id.isEmpty = true ∨ event_type.isEmpty = true ∨
       source.isEmpty = true ∨ description.isEmpty = true)) ∧
    (event_id.isEmpty = true →
      mkSecurityEvent event_id timestamp threat_level event_type source
        description details = .error (.valueError "event_id cannot be empty")) ∧
    (event_id.isEmpty = false → event_type.isEmpty = true →
      mkSecurityEvent event_id timestamp threat_level event_type source
        description details = .error (.valueError "event_type cannot be empty")) ∧
    (event_id.isEmpty = false → event_type.isEmpty = false →
      source.isEmpty = true →
      mkSecurityEvent event_id timestamp threat_level event_type source
        description details = .error (.valueError "source cannot be empty")) ∧
    (event_id.isEmpty = false → event_type.isEmpty = false →
      source.isEmpty = false → description.isEmpty = true →
      mkSecurityEvent event_id timestamp threat_level event_type source
        description details = .error (.valueError "description cannot be empty")) ∧
    (event_id.isEmpty = false → event_type.isEmpty = false →
      source.isEmpty = false → description.isEmpty = false →
      mkSecurityEvent event_id timestamp threat_level event_type source
        description details =
        .ok { event_id, timestamp, threat_level, event_type, source,
              description, details }) ∧
    (mkSecurityEventNoDetails event_id timestamp threat_level event_type source
        description =
      mkSecurityEvent event_id timestamp threat_level event_type source
        description []) := by
  by_cases h1 : event_id.isEmpty <;>
    by_cases h2 : event_type.isEmpty <;>
      by_cases h3 : source.isEmpty <;>
        by_cases h4 : description.isEmpty <;>
          simp [mkSecurityEvent, mkSecurityEventNoDetails,
            SecurityEvent.post_init, h1, h2, h3, h4]

/-- Witness for C9: a concrete empty `description` is rejected naming
`description`, and fully valid fields construct successfully. -/
theorem securityEvent_validation_witness :
    mkSecurityEvent "evt-9" 5 .HIGH "intrusion" "sensor" "" [] =
      .error (.valueError "description cannot be empty") ∧
    mkSecurityEvent "evt-9" 5 .HIGH "intrusion" "sensor" "bad login" [] =
      .ok { event_id := "evt-9", timestamp := 5, threat_level := .HIGH,
            event_type := "intrusion", source := "sensor",
            description := "bad login", details := [] } :=
  ⟨(securityEvent_validation "evt-9" 5 .HIGH "intrusion" "sensor" "" []).2.2.2.2.1
      rfl rfl rfl rfl,
   (securityEvent_validation "evt-9" 5 .HIGH "intrusion" "sensor" "bad login"
      []).2.2.2.2.2.1 rfl rfl rfl rfl⟩

/-- C10: `start_monitoring` on an already-running monitor warns and leaves
the state unchanged (so after two starts exactly one background task is
live), and `stop_monitoring` on a non-running monitor warns and is a no-op
(the operations never raise — they are total on the state). -/
theorem lifecycle_idempotent :
    (∀ m : SecurityMonitor, m.monitoring = true → start_monitoring m = (m, true)) ∧
    (∀ m : SecurityMonitor, m.monitoring = false → stop_monitoring m = (m, true)) ∧
    (∀ (name : String) (max_events : Int),
      (start_monitoring (SecurityMonitor.init name max_events)).1.live_tasks = 1 ∧
      (start_monitoring
        (start_monitoring (SecurityMonitor.init name max_events)).1).1 =
        (start_monitoring (SecurityMonitor.init name max_events)).1 ∧
      (start_monitoring
        (start_monitoring (SecurityMonitor.init name max_events)).1).2 = true ∧
      stop_monitoring (SecurityMonitor.init name max_events) =
        (SecurityMonitor.init name max_events, true)) := by
  refine ⟨?_, ?_, ?_⟩
  · intro m h; simp [start_monitoring, h]
  · intro m h; simp [stop_monitoring, h]
  · intro name max_events
    refine ⟨rfl, ?_, ?_, rfl⟩ <;>
      simp [start_monitoring, SecurityMonitor.init]

/-- Witness for C10 at a concrete running and a concrete idle monitor. -/
theorem lifecycle_idempotent_witness :
    start_monitoring (start_monitoring (SecurityMonitor.init "M" 10)).1 =
      ((start_monitoring (SecurityMonitor.init "M" 10)).1, true) ∧
    stop_monitoring (SecurityMonitor.init "M" 10) =
      (SecurityMonitor.init "M" 10, true) := by
  constructor
  · exact lifecycle_idempotent.1
      (start_monitoring (SecurityMonitor.init "M" 10)).1 (by decide)
  · exact lifecycle_idempotent.2.1 (SecurityMonitor.init "M" 10) rfl

theorem logAppendAndEmit_state (m : SecurityMonitor) (e : SecurityEvent) :
    (logAppendAndEmit m e).state = { m with events := m.events ++ [e] } := by
  unfold logAppendAndEmit
  cases h : logging_getattr e.threat_level.name <;> simp

theorem log_event_max_eq (m : SecurityMonitor) (a : LogArg) :
    (log_event m a).state.max_events = m.max_events := by
  cases a with
  | nonEvent => rfl
  | ev e =>
      simp only [log_event]
      split
      · cases hev : m.events with
        | nil => rfl
        | cons x rest => rw [logAppendAndEmit_state]
      · rw [logAppendAndEmit_state]

theorem log_event_not_full (m : SecurityMonitor) (e : SecurityEvent)
    (h : ¬((m.events.length : Int) ≥ m.max_events)) :
    (log_event m (.ev e)).state = { m with events := m.events ++ [e] } := by
  simp only [log_event]
  rw [if_neg h]
  exact logAppendAndEmit_state m e

theorem log_event_full (m : SecurityMonitor) (e y : SecurityEvent)
    (t : List SecurityEvent) (hev : m.events = y :: t)
    (hge : (m.events.length : Int) ≥ m.max_events) :
    (log_event m (.ev e)).state = { m with events := t ++ [e] } := by
  simp only [log_event]
  rw [if_pos hge]
  rw [hev]
  show (logAppendAndEmit { m with events := t } e).state = _
  rw [logAppendAndEmit_state]

theorem log_event_length_invariant (m : SecurityMonitor) (a : LogArg)
    (h : (m.events.length : Int) ≤ m.max_events) :
    ((log_event m a).state.events.length : Int) ≤ m.max_events := by
  cases a with
  | nonEvent => exact h
  | ev e =>
      by_cases hge : (m.events.length : Int) ≥ m.max_events
      · cases hev : m.events with
        | nil =>
            simp only [log_event]
            rw [if_pos hge, hev]
            show ((m.events.length : Int) ≤ m.max_events)
            exact h
        | cons y t =>
            rw [log_event_full m e y t hev hge]
            rw [hev] at h
            simp only [List.length_append, List.length_cons,
              List.length_nil] at h ⊢
            push_cast at h ⊢
            omega
      · rw [log_event_not_full m e hge]
        simp only [List.length_append, List.length_cons, List.length_nil]
        push_cast
        push_cast at hge
        omega

theorem logMany_cons (m : SecurityMonitor) (e : SecurityEvent)
    (es : List SecurityEvent) :
    logMany m (e :: es) = logMany (log_event m (.ev e)).state es := rfl

theorem logMany_append (m : SecurityMonitor) (xs ys : List SecurityEvent) :
    logMany m (xs ++ ys) = logMany (logMany m xs) ys := by
  simp [logMany, List.foldl_append]

theorem logMany_fill (xs : List SecurityEvent) :
    ∀ m : SecurityMonitor, ((m.events.length + xs.length : Int) ≤ m.max_events) →
    logMany m xs = { m with events := m.events ++ xs } := by
  induction xs with
  | nil => intro m h; simp [logMany]
  | cons e rest ih =>
      intro m h
      rw [logMany_cons]
      have hlt : ¬ ((m.events.length : Int) ≥ m.max_events) := by
        simp only [List.length_cons] at h
        push_cast at h
        omega
      rw [log_event_not_full m e hlt]
      rw [ih { m with events := m.events ++ [e] } ?_]
      · simp
      · simp only [List.length_append, List.length_cons, List.length_nil] at h ⊢
        push_cast at h ⊢
        omega

/-- C3: for every non-negative capacity and every sequence of valid events
logged from the fresh monitor, the store size stays within `max_events`
after every call (every intermediate state is `logMany` of a prefix, so
quantifying over all sequences covers every call boundary). -/
theorem store_size_bounded (name : String) (max_events : Int)
    (es : List SecurityEvent) (h : 0 ≤ max_events) :
    ((logMany (SecurityMonitor.init name max_events) es).events.length : Int) ≤
      max_events := by
  suffices h2 : ∀ (es : List SecurityEvent) (m : SecurityMonitor),
      ((m.events.length : Int) ≤ m.max_events) →
      ((logMany m es).events.length : Int) ≤ m.max_events by
    simpa [SecurityMonitor.init] using
      h2 es (SecurityMonitor.init name max_events)
        (by simpa [SecurityMonitor.init] using h)
  intro es
  induction es with
  | nil => intro m hm; exact hm
  | cons e rest ih =>
      intro m hm
      rw [logMany_cons]
      have h1 := log_event_length_invariant m (.ev e) hm
      have h2 := log_event_max_eq m (.ev e)
      have h3 := ih (log_event m (.ev e)).state (by rw [h2]; exact h1)
      rw [h2] at h3
      exact h3

/-- Witness for C3: three events through a capacity-2 monitor never exceed
size 2. -/
theorem store_size_bounded_witness :
    ((logMany (SecurityMonitor.init "M" 2)
      [sampleEvent 1 .INFO, sampleEvent 2 .HIGH,
       sampleEvent 3 .CRITICAL]).events.length : Int) ≤ 2 :=
  store_size_bounded "M" 2
    [sampleEvent 1 .INFO, sampleEvent 2 .HIGH, sampleEvent 3 .CRITICAL]
    (by decide)

/-- C4: with capacity `N ≥ 1`, logging `N + 1` events on a fresh monitor
leaves exactly the last `N` of them, in their original relative order — the
single oldest event is evicted on the over-capacity insert. -/
theorem eviction_order (name : String) (N : Nat) (es : List SecurityEvent)
    (hN : 1 ≤ N) (hlen : es.length = N + 1) :
    (logMany (SecurityMonitor.init name (N : Int)) es).events = es.tail := by
  have hne : es ≠ [] := by
    intro h
    rw [h] at hlen
    simp at hlen
  obtain ⟨xs, x, rfl⟩ : ∃ xs x, es = xs ++ [x] :=
    ⟨es.dropLast, es.getLast hne, (List.dropLast_append_getLast hne).symm⟩
  have hxs : xs.length = N := by simpa using hlen
  have hfill := logMany_fill xs (SecurityMonitor.init name (N : Int))
    (by simp [SecurityMonitor.init, hxs])
  rw [logMany_append]
  cases xs with
  | nil =>
      exfalso
      simp only [List.length_nil] at hxs
      omega
  | cons y t =>
      have hm1ev : (logMany (SecurityMonitor.init name (N : Int))
          (y :: t)).events = y :: t := by
        rw [hfill]
        simp [SecurityMonitor.init]
      have hm1max : (logMany (SecurityMonitor.init name (N : Int))
          (y :: t)).max_events = (N : Int) := by
        rw [hfill]
        rfl
      have hge : (((logMany (SecurityMonitor.init name (N : Int))
          (y :: t)).events.length : Int) ≥
          (logMany (SecurityMonitor.init name (N : Int)) (y :: t)).max_events) := by
        rw [hm1ev, hm1max, show (y :: t).length = N by simpa using hxs]
      rw [logMany_cons, log_event_full _ x y t hm1ev hge]
      simp [logMany]

/-- Witness for C4: capacity 1, two events; the first is evicted and only
the second remains. -/
theorem eviction_order_witness :
    (logMany (SecurityMonitor.init "M" (1 : Nat))
      [sampleEvent 1 .INFO, sampleEvent 2 .CRITICAL]).events =
      [sampleEvent 1 .INFO, sampleEvent 2 .CRITICAL].tail :=
  eviction_order "M" 1 [sampleEvent 1 .INFO, sampleEvent 2 .CRITICAL]
    (by decide) (by decide)

theorem filterStage_eq {α : Type} (fe : List SecurityEvent) (opt : Option α)
    (p : α → SecurityEvent → Bool) :
    filterStage fe opt p = fe.filter (fun e => opt.all (fun x => p x e)) := by
  cases opt with
  | none => simp [filterStage]
  | some x => rfl

/-- C5: `get_events` returns exactly the stored events passing the
conjunction of the supplied filters, in original insertion order (a single
order-preserving `filter` of the store): severity at least the given level,
case-insensitive equality on `event_type` and `source`, and inclusive
timestamp bounds; with no filters it returns the whole store.  The final
conjunct ties the `ge` comparison to the severity rank order. -/
theorem get_events_spec (m : SecurityMonitor) (threat_level : Option ThreatLevel)
    (event_type : Option String) (source : Option String)
    (start_time : Option Int) (end_time : Option Int) :
    (get_events m threat_level event_type source start_time end_time =
      m.events.filter (fun e =>
        threat_level.all (fun tl => e.threat_level.ge tl) &&
        (event_type.all (fun et => e.event_type.toLower == et.toLower) &&
        (source.all (fun s => e.source.toLower == s.toLower) &&
        (start_time.all (fun st => decide (st ≤ e.timestamp)) &&
        end_time.all (fun en => decide (e.timestamp ≤ en))))))) ∧
    get_events m none none none none none = m.events ∧
    (∀ a b : ThreatLevel,
      ThreatLevel.ge a b = decide (severity_order b ≤ severity_order a)) := by
  refine ⟨?_, ?_, by intro a b; cases a <;> cases b <;> rfl⟩
  · simp only [get_events, filterStage_eq, List.filter_filter]
    apply List.filter_congr
    intro e _
    cases threat_level <;> cases event_type <;> cases source <;>
      cases start_time <;> cases end_time <;>
        simp [Option.all, ge_iff_le, Bool.and_comm, Bool.and_assoc,
          Bool.and_left_comm]
  · simp [get_events, filterStage]

theorem length_filter_not_add (l : List SecurityEvent) (p : SecurityEvent → Bool) :
    (l.filter p).length + (l.filter (fun e => !(p e))).length = l.length := by
  induction l with
  | nil => rfl
  | cons e rest ih =>
      cases h : p e <;> simp [List.filter_cons, h, ← ih] <;> omega

/-- C6: `clear_events` with no threshold empties the store and returns the
prior count; with a threshold it keeps exactly the strictly-more-severe
events in their original order and returns the number removed, which is the
count of events at or below the threshold.  The final conjuncts tie the
`gt`/`le` comparisons to the severity rank order (covering the spec's
example: on [LOW, MEDIUM, HIGH, CRITICAL], clearing at MEDIUM keeps
[HIGH, CRITICAL] and returns 2). -/
theorem clear_events_spec (m : SecurityMonitor) :
    (clear_events m none).1 = m.events.length ∧
    (clear_events m none).2.events = [] ∧
    (∀ tl : ThreatLevel,
      (clear_events m (some tl)).2.events =
        m.events.filter (fun e => e.threat_level.gt tl) ∧
      (clear_events m (some tl)).1 =
        (m.events.filter (fun e => e.threat_level.le tl)).length) ∧
    (∀ a b : ThreatLevel,
      ThreatLevel.gt a b = decide (severity_order b < severity_order a)) ∧
    (∀ a b : ThreatLevel,
      ThreatLevel.le a b = decide (severity_order a ≤ severity_order b)) := by
  refine ⟨rfl, rfl, ?_, by intro a b; cases a <;> cases b <;> rfl,
    by intro a b; cases a <;> cases b <;> rfl⟩
  intro tl
  refine ⟨rfl, ?_⟩
  have hle : m.events.filter (fun e => e.threat_level.le tl) =
      m.events.filter (fun e => !(e.threat_level.gt tl)) :=
    List.filter_congr (fun e _ => by simp [ThreatLevel.gt, Bool.not_not])
  have hsplit := length_filter_not_add m.events (fun e => e.threat_level.gt tl)
  show m.events.length -
      (m.events.filter (fun e => e.threat_level.gt tl)).length = _
  rw [hle]
  omega

theorem calculate_threat_summary_eq (events : List SecurityEvent)
    (lvl : ThreatLevel) :
    calculate_threat_summary events lvl =
      (events.filter (fun e => e.threat_level == lvl)).length := by
  suffices h : ∀ (events : List SecurityEvent) (s : ThreatLevel → Nat)
      (lvl : ThreatLevel),
      events.foldl
        (fun s e => Function.update s e.threat_level (s e.threat_level + 1)) s lvl =
        s lvl + (events.filter (fun e => e.threat_level == lvl)).length by
    simpa [calculate_threat_summary] using h events (fun _ => 0) lvl
  intro events
  induction events with
  | nil => intro s lvl; simp
  | cons e rest ih =>
      intro s lvl
      simp only [List.foldl_cons, List.filter_cons]
      rw [ih]
      rcases eq_or_ne e.threat_level lvl with h | h
      · simp [Function.update_apply, h]
        omega
      · simp [Function.update_apply, h, Ne.symm h]

/-- C7: `get_status` reports the store size as `total_events`, computes
`capacity_usage_percent` by the formula `total_events / max_events * 100`
exactly when `max_events > 0` and as `0` otherwise (in particular when
`max_events = 0`, so no division by zero is ever attempted), and its
`threat_summary` assigns to every one of the five severity levels the count
of stored events at that level (zero for levels with no events). -/
theorem get_status_spec (m : SecurityMonitor) (now : Int) :
    (get_status m now).total_events = m.events.length ∧
    (get_status m now).capacity_usage_percent =
      (if 0 < m.max_events then
        (m.events.length : ℚ) / (m.max_events : ℚ) * 100 else 0) ∧
    (m.max_events = 0 → (get_status m now).capacity_usage_percent = 0) ∧
    (∀ lvl : ThreatLevel, (get_status m now).threat_summary lvl =
      (m.events.filter (fun e => e.threat_level == lvl)).length) := by
  refine ⟨rfl, rfl, ?_, ?_⟩
  · intro h
    simp [get_status, h]
  · intro lvl
    exact calculate_threat_summary_eq m.events lvl

/-- Witness for C7: the empty zero-capacity monitor reports a zero capacity
percentage and a zero CRITICAL count. -/
theorem get_status_spec_witness :
    (get_status (SecurityMonitor.init "M" 0) 7).capacity_usage_percent = 0 ∧
    (get_status (SecurityMonitor.init "M" 0) 7).threat_summary .CRITICAL = 0 :=
  ⟨(get_status_spec (SecurityMonitor.init "M" 0) 7).2.2.1 rfl,
   ((get_status_spec (SecurityMonitor.init "M" 0) 7).2.2.2
      ThreatLevel.CRITICAL).trans rfl⟩

theorem dictLookup_dictIncr_self (d : List (String × Nat)) (k : String) :
    dictLookup (dictIncr d k) k = some ((dictLookup d k).getD 0 + 1) := by
  induction d with
  | nil => simp [dictIncr, dictLookup]
  | cons kv rest ih =>
      obtain ⟨k2, v⟩ := kv
      rcases eq_or_ne k2 k with h | h
      · simp [dictIncr, dictLookup, h]
      · simp [dictIncr, dictLookup, h, ih]

theorem dictLookup_dictIncr_ne (d : List (String × Nat)) (k k2 : String)
    (h : k2 ≠ k) :
    dictLookup (dictIncr d k) k2 = dictLookup d k2 := by
  induction d with
  | nil => simp [dictIncr, dictLookup, Ne.symm h]
  | cons kv rest ih =>
      obtain ⟨k3, v⟩ := kv
      rcases eq_or_ne k3 k with h3 | h3
      · rcases eq_or_ne k3 k2 with h4 | h4 <;>
          simp [dictIncr, dictLookup, h3, h4, Ne.symm h, ih]
      · rcases eq_or_ne k3 k2 with h4 | h4 <;>
          simp [dictIncr, dictLookup, h3, h4, h, ih]

theorem dictLookup_foldl_dictIncr (f : SecurityEvent → String)
    (es : List SecurityEvent) :
    ∀ (d : List (String × Nat)) (k : String),
      dictLookup (es.foldl (fun d e => dictIncr d (f e)) d) k =
        (if (es.filter (fun e => f e == k)).length = 0 then dictLookup d k
         else some ((dictLookup d k).getD 0 +
           (es.filter (fun e => f e == k)).length)) := by
  induction es with
  | nil => intro d k; simp
  | cons e rest ih =>
      intro d k
      simp only [List.foldl_cons, List.filter_cons]
      rw [ih]
      rcases eq_or_ne (f e) k with h | h
      · by_cases hc : (rest.filter (fun e2 => f e2 == k)).length = 0
        all_goals simp [h, hc, dictLookup_dictIncr_self]
        all_goals omega
      · simp [h, dictLookup_dictIncr_ne d (f e) k (Ne.symm h)]

theorem threatLevel_name_injective (a b : ThreatLevel) (h : a.name = b.name) :
    a = b := by
  cases a <;> cases b <;> first
    | rfl
    | exact absurd h (by decide)

theorem to_dict_injective : Function.Injective SecurityEvent.to_dict := by
  intro e1 e2 h
  cases e1
  cases e2
  simp only [SecurityEvent.to_dict, EventDict.mk.injEq] at h
  obtain ⟨h1, h2, h3, h4, h5, h6, h7⟩ := h
  simp only [SecurityEvent.mk.injEq]
  exact ⟨h1, h2, threatLevel_name_injective _ _ h3, h4, h5, h6, h7⟩

/-- C8: `get_event_summary` reports the store size, per-`event_type` and
per-`source` occurrence counts (a key is present in the map exactly when it
occurs, mapped to its count), the number of CRITICAL-or-HIGH events, and the
serialization of the most recently inserted event (`to_dict` is injective,
so this field determines that event); on the empty store everything is
zero / empty / null. -/
theorem get_event_summary_spec (m : SecurityMonitor) :
    (get_event_summary m).total_events = m.events.length ∧
    (∀ t : String, dictLookup (get_event_summary m).events_by_type t =
      (if (m.events.filter (fun e => e.event_type == t)).length = 0 then none
       else some ((m.events.filter (fun e => e.event_type == t)).length))) ∧
    (∀ s : String, dictLookup (get_event_summary m).events_by_source s =
      (if (m.events.filter (fun e => e.source == s)).length = 0 then none
       else some ((m.events.filter (fun e => e.source == s)).length))) ∧
    (get_event_summary m).critical_events =
      (m.events.filter (fun e =>
        e.threat_level == ThreatLevel.CRITICAL ||
        e.threat_level == ThreatLevel.HIGH)).length ∧
    (get_event_summary m).latest_event =
      m.events.getLast?.map SecurityEvent.to_dict ∧
    (m.events = [] → get_event_summary m =
      { total_events := 0, events_by_type := [], events_by_source := [],
        critical_events := 0, latest_event := none }) ∧
    Function.Injective SecurityEvent.to_dict := by
  by_cases hemp : m.events = []
  · refine ⟨?_, ?_, ?_, ?_, ?_, fun _ => ?_, to_dict_injective⟩ <;>
      simp [get_event_summary, hemp, dictLookup]
  · have hne : m.events.isEmpty = false := by
      simpa [List.isEmpty_iff] using hemp
    refine ⟨?_, ?_, ?_, ?_, ?_, fun h => absurd h hemp, to_dict_injective⟩
    · simp [get_event_summary, hne]
    · intro t
      simp only [get_event_summary, hne, Bool.false_eq_true, if_false]
      rw [dictLookup_foldl_dictIncr]
      simp [dictLookup]
    · intro s
      simp only [get_event_summary, hne, Bool.false_eq_true, if_false]
      rw [dictLookup_foldl_dictIncr]
      simp [dictLookup]
    · simp [get_event_summary, hne]
    · simp [get_event_summary, hne]

/-- Witness for C8 facts at a concrete two-event store. -/
theorem get_event_summary_spec_witness :
    (get_event_summary (logMany (SecurityMonitor.init "M" 10)
      [sampleEvent 1 .INFO, sampleEvent 2 .CRITICAL])).total_events = 2 ∧
    (get_event_summary (SecurityMonitor.init "M" 10)).latest_event = none :=
  ⟨((get_event_summary_spec (logMany (SecurityMonitor.init "M" 10)
      [sampleEvent 1 .INFO, sampleEvent 2 .CRITICAL])).1).trans (by decide),
   (((get_event_summary_spec (SecurityMonitor.init "M" 10)).2.2.2.2.2.1)
      rfl ▸ rfl)⟩

end SentinelX

